import Mathlib

/-!
Verification of the OpenVTO playground client core against its specification.

The development shallowly embeds the client-side orchestration code of the
repository (the zustand store in `src/data/mock-data.ts`, the remote
generation client in `src/services/api.ts`, and the `handleGenerate`
pipeline in `app/(tabs)/index.tsx`) as executable Lean definitions and
proves the specified properties about them.

Modelling conventions:
- JavaScript exceptions are modelled with `Except String`: a thrown
  `Error(msg)` is `Except.error msg`; a normal return value `v` is
  `Except.ok v`.
- Effects of the remote service and of the filesystem are passed in as
  explicit oracle values (a `FetchResult` for each endpoint, outcome values
  for downloads and reads), so each run of an operation is a pure function
  of its inputs and of the oracle.
- Fresh identities and timestamps (`generateId()`, `Date.now()`) are taken
  as parameters.
- Strings stand for URIs, base64 payloads and ids; numbers are `Nat`.
-/

namespace OpenVTO

/-- Generation status of a stored artifact, from `types` in the playground:
idle, pending, processing, completed, failed. -/
inductive GenerationStatus where
  | idle
  | pending
  | processing
  | completed
  | failed
  deriving DecidableEq, Repr

/-- History item from `mock-data.ts`: id, type (image or video, called
`kind` here because `type` is reserved), uri, optional thumbnail,
timestamp. -/
structure HistoryItem where
  id : String
  kind : String
  uri : String
  thumbnail : Option String
  timestamp : Nat
  deriving DecidableEq, Repr

/-- Styling parameters of a clothing item (`ClothingParameters` in types). -/
structure ClothingParameters where
  fit : Option String
  length : Option String
  color : Option String
  pattern : Option String
  material : Option String
  customParams : List (String × String)
  deriving DecidableEq, Repr

/-- Clothing item entity (`ClothingItem` in types). The optional
`isLocal` flag is modelled as a `Bool`, `false` standing for an absent or
false flag, which is how `filter(item => item.isLocal)` treats it. -/
structure ClothingItem where
  id : String
  name : String
  category : String
  frontImageUri : String
  backImageUri : Option String
  thumbnail : Option String
  parameters : Option ClothingParameters
  tags : List String
  isLocal : Bool
  createdAt : Nat
  updatedAt : Nat
  deriving DecidableEq, Repr

/-- User photo entity (`UserPhoto` in types). -/
structure UserPhoto where
  id : String
  uri : String
  source : String
  width : Nat
  height : Nat
  thumbnail : Option String
  createdAt : Nat
  updatedAt : Nat
  deriving DecidableEq, Repr

/-- Clothing set entity (`ClothingSet` in types). -/
structure ClothingSet where
  id : String
  name : String
  items : List String
  thumbnail : Option String
  createdAt : Nat
  updatedAt : Nat
  deriving DecidableEq, Repr

/-- Generated avatar entity (`Avatar` in types). -/
structure Avatar where
  id : String
  name : String
  sourcePhotoId : String
  perspective : String
  state : String
  backgroundType : String
  imageUri : String
  thumbnail : Option String
  status : GenerationStatus
  errorMessage : Option String
  createdAt : Nat
  updatedAt : Nat
  deriving DecidableEq, Repr

/-- Try-on result entity (`TryOnResult` in types). -/
structure TryOnResult where
  id : String
  avatarId : String
  clothingItemIds : List String
  perspective : String
  imageUri : String
  thumbnail : Option String
  status : GenerationStatus
  errorMessage : Option String
  createdAt : Nat
  updatedAt : Nat
  deriving DecidableEq, Repr

/-- Animation keyframe (`AnimationKeyframe` in types). -/
structure AnimationKeyframe where
  frameIndex : Nat
  imageUri : String
  perspective : Option String
  timestamp : Nat
  deriving DecidableEq, Repr

/-- Animation configuration (`AnimationConfig` in types). -/
structure AnimationConfig where
  kind : String
  keyframes : List AnimationKeyframe
  duration : Nat
  fps : Nat
  loop : Bool
  deriving DecidableEq, Repr

/-- Animation result entity (`AnimationResult` in types). -/
structure AnimationResult where
  id : String
  name : String
  sourceType : String
  sourceId : String
  config : AnimationConfig
  videoUri : Option String
  gifUri : Option String
  status : GenerationStatus
  errorMessage : Option String
  createdAt : Nat
  updatedAt : Nat
  deriving DecidableEq, Repr

/-- The zustand store state (`PlaygroundState` in `mock-data.ts`). -/
structure PlaygroundState where
  photos : List UserPhoto
  selectedPhotoId : Option String
  clothingItems : List ClothingItem
  clothingSets : List ClothingSet
  selectedClothingIds : List String
  avatars : List Avatar
  selectedAvatarId : Option String
  tryOnResults : List TryOnResult
  selectedTryOnId : Option String
  animations : List AnimationResult
  selectedAnimationId : Option String
  generationHistory : List HistoryItem
  isLoading : Bool
  currentTab : String
  deriving DecidableEq, Repr

/-- `addToHistory` from `mock-data.ts`: the freshly built history item
(the store generates its id and timestamp, taken here as part of `item`)
is prepended and the list is truncated with `slice(0, 50)`. -/
def addToHistory (item : HistoryItem) (generationHistory : List HistoryItem) :
    List HistoryItem :=
  (item :: generationHistory).take 50

/-- Store-level `addToHistory`: updates the `generationHistory` slice. -/
def addToHistoryState (item : HistoryItem) (s : PlaygroundState) : PlaygroundState :=
  { s with generationHistory := addToHistory item s.generationHistory }

/-- `selectClothingItem` from `mock-data.ts`: appends the id to
`selectedClothingIds` unless it is already included. -/
def selectClothingItem (id : String) (s : PlaygroundState) : PlaygroundState :=
  { s with selectedClothingIds :=
      if s.selectedClothingIds.contains id then s.selectedClothingIds
      else s.selectedClothingIds ++ [id] }

/-- `deselectClothingItem` from `mock-data.ts`: filters the id out. -/
def deselectClothingItem (id : String) (s : PlaygroundState) : PlaygroundState :=
  { s with selectedClothingIds := s.selectedClothingIds.filter (fun cid => cid ≠ id) }

/-- `updateAvatarStatus` from `mock-data.ts`: maps over `avatars`; on the
matching id, `status` is replaced, `imageUri` falls back to the old value
when the argument is absent (`imageUri ?? avatar.imageUri`), `errorMessage`
is set to the `error` argument as passed (absent argument clears it), and
`updatedAt` is set to the current time `now`. -/
def updateAvatarStatus (id : String) (status : GenerationStatus)
    (imageUri : Option String) (error : Option String) (now : Nat)
    (s : PlaygroundState) : PlaygroundState :=
  { s with avatars := s.avatars.map (fun avatar =>
      if avatar.id = id then
        { avatar with
            status := status,
            imageUri := imageUri.getD avatar.imageUri,
            errorMessage := error,
            updatedAt := now }
      else avatar) }

/-- `updateTryOnStatus` from `mock-data.ts`, same shape as
`updateAvatarStatus` over `tryOnResults`. -/
def updateTryOnStatus (id : String) (status : GenerationStatus)
    (imageUri : Option String) (error : Option String) (now : Nat)
    (s : PlaygroundState) : PlaygroundState :=
  { s with tryOnResults := s.tryOnResults.map (fun result =>
      if result.id = id then
        { result with
            status := status,
            imageUri := imageUri.getD result.imageUri,
            errorMessage := error,
            updatedAt := now }
      else result) }

/-- `updateAnimationStatus` from `mock-data.ts`, same shape over
`animations` with the optional `videoUri`. -/
def updateAnimationStatus (id : String) (status : GenerationStatus)
    (videoUri : Option String) (error : Option String) (now : Nat)
    (s : PlaygroundState) : PlaygroundState :=
  { s with animations := s.animations.map (fun anim =>
      if anim.id = id then
        { anim with
            status := status,
            videoUri := match videoUri with
              | some v => some v
              | none => anim.videoUri,
            errorMessage := error,
            updatedAt := now }
      else anim) }

/-- The subset of the store that the persist middleware writes, from the
`partialize` option in `mock-data.ts`. -/
structure PersistedState where
  generationHistory : List HistoryItem
  clothingItems : List ClothingItem
  deriving DecidableEq, Repr

/-- `partialize` from `mock-data.ts`: only `generationHistory` and the
clothing items whose `isLocal` flag is set are persisted. -/
def partialize (s : PlaygroundState) : PersistedState :=
  { generationHistory := s.generationHistory,
    clothingItems := s.clothingItems.filter (fun item => item.isLocal) }

/-! ## Remote generation client (`src/services/api.ts`) -/

/-- One entry of a FastAPI validation-error array in an error body:
optional `loc` path and optional `msg`. -/
structure ValidationEntry where
  loc : Option (List String)
  msg : Option String
  deriving DecidableEq, Repr

/-- The `detail` field of a parsed error body: an array of validation
entries, a plain string, or absent (or of some other shape). -/
inductive DetailField where
  | arr (entries : List ValidationEntry)
  | str (s : String)
  | absent
  deriving DecidableEq, Repr

/-- A parsed JSON error body: its `detail` field and, for the try-on
handler, its optional `message` field. -/
structure ParsedErrorBody where
  detail : DetailField
  message : Option String
  deriving DecidableEq, Repr

/-- Outcome of parsing the error body of a non-ok response:
either a parsed JSON object or a parse failure. -/
inductive ErrorBodyParse where
  | parsed (e : ParsedErrorBody)
  | unparseable
  deriving DecidableEq, Repr

/-- Oracle for one `fetch` of a generation endpoint: a response with
`ok = true` carrying the decoded JSON payload, or a response with a
non-success HTTP status, status text, and error body. -/
inductive FetchResult (α : Type) where
  | ok (payload : α)
  | httpError (status : Nat) (statusText : String) (body : ErrorBodyParse)
  deriving DecidableEq, Repr

/-- Provider metadata in success payloads. -/
structure ProviderMeta where
  model : String
  provider : String
  latency_ms : Option Nat
  deriving DecidableEq, Repr

/-- Success payload of `POST /generate/avatar`. -/
structure AvatarResponse where
  image_b64 : String
  width : Nat
  height : Nat
  meta : Option ProviderMeta
  deriving DecidableEq, Repr

/-- Success payload of `POST /generate/tryon`. -/
structure TryOnResponse where
  image_b64 : String
  clothing_composite_b64 : Option String
  meta : Option ProviderMeta
  deriving DecidableEq, Repr

/-- Success payload of `POST /generate/videoloop`. -/
structure VideoLoopResponse where
  video_b64 : String
  first_frame_b64 : String
  duration_seconds : Nat
  width : Nat
  height : Nat
  mode : String
  meta : Option ProviderMeta
  deriving DecidableEq, Repr

/-- Request body of `generateAvatar` in `api.ts`. -/
structure AvatarGenerationRequest where
  selfie_b64 : String
  posture_b64 : String
  background : Option String
  keep_clothes : Option Bool
  deriving DecidableEq, Repr

/-- Request body of `generateTryOn` in `api.ts`. -/
structure TryOnGenerationRequest where
  avatar_b64 : String
  clothes_b64 : List String
  compose : Option Bool
  seed : Option Nat
  deriving DecidableEq, Repr

/-- Request body of `generateVideoLoop` in `api.ts`. -/
structure VideoLoopRequest where
  image_b64 : String
  mode : Option String
  seconds : Option Nat
  seed : Option Nat
  deriving DecidableEq, Repr

/-- Model of the JavaScript `includes` check for one character, by
membership in the character list. -/
def strContainsChar (s : String) (c : Char) : Bool :=
  s.data.contains c

/-- Split a character list at every occurrence of the separator. -/
def splitChars (c : Char) : List Char → List (List Char)
  | [] => [[]]
  | ch :: rest =>
    match splitChars c rest with
    | [] => [[]]
    | seg :: segs => if ch = c then [] :: seg :: segs else (ch :: seg) :: segs

/-- Model of the JavaScript `split` with a one-character separator. -/
def strSplitOnChar (s : String) (c : Char) : List String :=
  (splitChars c s.data).map String.mk

/-- Model of the JavaScript `startsWith`. -/
def strStartsWith (s p : String) : Bool :=
  p.data.isPrefixOf s.data

/-- The data-URI comma split done at the top of `base64ToTempFile`:
`base64.includes(",") ? base64.split(",")[1] : base64`. -/
def stripDataUriScheme (b64 : String) : String :=
  if strContainsChar b64 ',' then (strSplitOnChar b64 ',').getD 1 "" else b64

/-- `base64ToTempFile` from `api.ts`: throws
`Invalid base64 data for <filename>` when the stripped payload is empty,
otherwise writes a cache file and returns its path. The cache directory is
modelled as available and the filesystem write as succeeding; the
timestamp suffix of the generated filename is omitted. -/
def base64ToTempFile (b64 : String) (filename : String) : Except String String :=
  let base64Data := stripDataUriScheme b64
  if base64Data = "" then Except.error ("Invalid base64 data for " ++ filename)
  else Except.ok ("cache/" ++ filename)

/-- The per-entry rendering of the try-on validation-error array
(the arrow function inside `generateTryOn`): the `loc` path joined with
dots (default `unknown` when absent or empty), a colon, and the entry
message (default `unknown error` when absent or empty). -/
def tryOnEntryText (v : ValidationEntry) : String :=
  let location := match v.loc with
    | some l =>
        if String.intercalate "." l = "" then "unknown"
        else String.intercalate "." l
    | none => "unknown"
  let message := match v.msg with
    | some m => if m = "" then "unknown error" else m
    | none => "unknown error"
  location ++ ": " ++ message

/-- Error normalization of `generateTryOn` (api.ts lines 368-392). On an
unparseable body the code throws `Server error: <status> <statusText>`.
On a validation array the rendered entries are joined with semicolons.
A string `detail` is used verbatim; otherwise a truthy `message` field,
else the generic fallback. -/
def tryOnErrorMessage (status : Nat) (statusText : String)
    (body : ErrorBodyParse) : String :=
  match body with
  | .unparseable => "Server error: " ++ toString status ++ " " ++ statusText
  | .parsed e =>
    match e.detail with
    | .arr entries => String.intercalate "; " (entries.map tryOnEntryText)
    | .str s => s
    | .absent =>
        match e.message with
        | some m => if m = "" then "Try-on generation failed" else m
        | none => "Try-on generation failed"

/-- The per-entry rendering of the avatar validation-error array (the
arrow function inside `generateAvatar`): the `loc` path (default `field`
when absent or empty), a colon, and `msg` interpolated directly, so an
absent message renders as the text `undefined`; the trailing
`|| JSON.stringify(e)` in the source is dead because the template string
is never empty. -/
def avatarEntryText (v : ValidationEntry) : String :=
  let location := match v.loc with
    | some l =>
        if String.intercalate "." l = "" then "field"
        else String.intercalate "." l
    | none => "field"
  let message := match v.msg with
    | some m => m
    | none => "undefined"
  location ++ ": " ++ message

/-- Error normalization of `generateAvatar` (api.ts lines 201-211). A
parse failure is replaced by a body whose `detail` is the status text.
Array entries are rendered by `avatarEntryText` and joined with
semicolons; a string detail is used verbatim; otherwise the generic
fallback. There is no `message` branch. -/
def avatarErrorMessage (statusText : String) (body : ErrorBodyParse) : String :=
  let e := match body with
    | .unparseable => ({ detail := .str statusText, message := none } : ParsedErrorBody)
    | .parsed pe => pe
  match e.detail with
  | .arr entries => String.intercalate "; " (entries.map avatarEntryText)
  | .str s => s
  | .absent => "Avatar generation failed"

/-- Minimal JSON string escaping used by the `JSON.stringify` model. -/
def jsonEscape (s : String) : String :=
  String.mk (s.data.foldl (fun acc c =>
    if c = '\\' then acc ++ ['\\', '\\']
    else if c = '\"' then acc ++ ['\\', '\"']
    else acc ++ [c]) [])

/-- Model of `JSON.stringify` on a validation entry, used by the video
error path when an entry has no truthy `msg`. Absent fields are omitted;
fields are serialized in the order loc, msg. -/
def jsonStringifyEntry (v : ValidationEntry) : String :=
  let fields :=
    (match v.loc with
     | some l =>
         ["\"loc\":[" ++
            String.intercalate ","
              (l.map (fun s => "\"" ++ jsonEscape s ++ "\"")) ++ "]"]
     | none => []) ++
    (match v.msg with
     | some m => ["\"msg\":\"" ++ jsonEscape m ++ "\""]
     | none => [])
  "\x7b" ++ String.intercalate "," fields ++ "\x7d"

/-- The per-entry rendering of the video-loop validation-error array (the
arrow function inside `generateVideoLoop`): `e.msg || JSON.stringify(e)`,
with no field path. -/
def videoEntryText (v : ValidationEntry) : String :=
  match v.msg with
  | some m => if m = "" then jsonStringifyEntry v else m
  | none => jsonStringifyEntry v

/-- Error normalization of `generateVideoLoop` (api.ts lines 451-460). A
parse failure is replaced by a string-detail body holding the status
text. Array entries are rendered by `videoEntryText` with no field path
and joined with semicolons; a string detail is used verbatim; otherwise
the generic fallback. -/
def videoErrorMessage (statusText : String) (body : ErrorBodyParse) : String :=
  let e := match body with
    | .unparseable => ({ detail := .str statusText, message := none } : ParsedErrorBody)
    | .parsed pe => pe
  match e.detail with
  | .arr entries => String.intercalate "; " (entries.map videoEntryText)
  | .str s => s
  | .absent => "Video loop generation failed"

/-- `generateAvatar` from `api.ts`, as a function of the request and of
the network oracle. The result is the returned payload or the thrown
error, paired with the number of network calls made to the avatar
endpoint. Temp-file preparation failures propagate unwrapped and make no
network call. -/
def generateAvatar (req : AvatarGenerationRequest)
    (net : FetchResult AvatarResponse) : Except String AvatarResponse × Nat :=
  match base64ToTempFile req.selfie_b64 "selfie.png" with
  | .error e => (.error e, 0)
  | .ok _ =>
    match base64ToTempFile req.posture_b64 "posture.png" with
    | .error e => (.error e, 0)
    | .ok _ =>
      match net with
      | .ok payload => (.ok payload, 1)
      | .httpError _ statusText body =>
          (.error (avatarErrorMessage statusText body), 1)

/-- Temp-file preparation loop of `generateTryOn` for the clothing
images. -/
def prepareClothes : List String → Nat → Except String Unit
  | [], _ => .ok ()
  | c :: rest, index =>
    match base64ToTempFile c ("cloth_" ++ toString index ++ ".png") with
    | .error e => .error e
    | .ok _ => prepareClothes rest (index + 1)

/-- Temp-file preparation block of `generateTryOn` (avatar file, then
every clothing file). -/
def prepareTryOnFiles (req : TryOnGenerationRequest) : Except String Unit :=
  match base64ToTempFile req.avatar_b64 "avatar.png" with
  | .error e => .error e
  | .ok _ => prepareClothes req.clothes_b64 0

/-- `generateTryOn` from `api.ts`. Validation runs before any network or
file work: an empty avatar payload throws `Avatar image is required`, an
empty garment list throws `At least one clothing item is required`.
File-preparation failures are wrapped as `Failed to prepare files: ...`.
Only then is the try-on endpoint fetched. The second component counts the
network calls made to the try-on endpoint. -/
def generateTryOn (req : TryOnGenerationRequest)
    (net : FetchResult TryOnResponse) : Except String TryOnResponse × Nat :=
  if req.avatar_b64 = "" then (.error "Avatar image is required", 0)
  else if req.clothes_b64 = [] then
    (.error "At least one clothing item is required", 0)
  else
    match prepareTryOnFiles req with
    | .error e => (.error ("Failed to prepare files: " ++ e), 0)
    | .ok _ =>
      match net with
      | .ok payload => (.ok payload, 1)
      | .httpError status statusText body =>
          (.error (tryOnErrorMessage status statusText body), 1)

/-- `generateVideoLoop` from `api.ts`: temp file for the input image,
then the video endpoint fetch; the second component counts the network
calls made to the video endpoint. -/
def generateVideoLoop (req : VideoLoopRequest)
    (net : FetchResult VideoLoopResponse) : Except String VideoLoopResponse × Nat :=
  match base64ToTempFile req.image_b64 "image.png" with
  | .error e => (.error e, 0)
  | .ok _ =>
    match net with
    | .ok payload => (.ok payload, 1)
    | .httpError _ statusText body =>
        (.error (videoErrorMessage statusText body), 1)

/-- `base64ToDataUri` from `api.ts`. -/
def base64ToDataUri (b64 : String) (mimeType : String) : String :=
  "data:" ++ mimeType ++ ";base64," ++ b64

/-! ## Media codec: `imageUriToBase64` (api.ts lines 477-513) -/

/-- Oracle for `FileSystem.downloadAsync`: the call either throws, or
writes the temp file and returns an HTTP status. -/
inductive DownloadOutcome where
  | fails (msg : String)
  | done (status : Nat)
  deriving DecidableEq, Repr

/-- Oracle for `FileSystem.readAsStringAsync`. -/
inductive ReadOutcome where
  | fails (msg : String)
  | ok (data : String)
  deriving DecidableEq, Repr

deriving instance DecidableEq for Except

/-- Result of one `imageUriToBase64` call: the returned base64 payload or
the thrown error, and whether the temporary download file still exists
when the call exits. -/
structure UriConversion where
  result : Except String String
  tempFileRemains : Bool
  deriving DecidableEq, Repr

/-- `imageUriToBase64` from `api.ts`. Data URIs return their payload part
(or, when the part after the comma is missing or empty, the whole uri,
mirroring `base64Part || uri`). Local paths are read directly. Remote
URLs are downloaded to a temp file inside a try block whose catch wraps
any error as `Failed to convert image: ...`; `deleteAsync` runs only
after a successful read, so the temp file written by the download remains
on the non-200 and read-failure exits. A download that itself throws is
modelled as not having created the file. -/
def imageUriToBase64 (uri : String) (localRead : ReadOutcome)
    (download : DownloadOutcome) (remoteRead : ReadOutcome) : UriConversion :=
  if strStartsWith uri "data:" then
    let base64Part := (strSplitOnChar uri ',').getD 1 ""
    { result := .ok (if base64Part = "" then uri else base64Part),
      tempFileRemains := false }
  else if strStartsWith uri "file://" || strStartsWith uri "/" then
    match localRead with
    | .ok data => { result := .ok data, tempFileRemains := false }
    | .fails msg => { result := .error msg, tempFileRemains := false }
  else
    match download with
    | .fails msg =>
        { result := .error ("Failed to convert image: " ++ msg),
          tempFileRemains := false }
    | .done status =>
      if status ≠ 200 then
        { result :=
            .error ("Failed to convert image: Failed to download image: "
              ++ toString status),
          tempFileRemains := true }
      else
        match remoteRead with
        | .fails msg =>
            { result := .error ("Failed to convert image: " ++ msg),
              tempFileRemains := true }
        | .ok data => { result := .ok data, tempFileRemains := false }

/-! ## The try-on pipeline: `handleGenerate` in `app/(tabs)/index.tsx` -/

/-- The image-or-video toggle of the generate button. -/
inductive GenerationMode where
  | image
  | video
  deriving DecidableEq, Repr

/-- The effect oracle of one `handleGenerate` run: the outcomes of the
avatar and garment base64 conversions, of the two generation fetches, and
of the saved video file check (`fileInfo.exists`, `fileInfo.size`). -/
structure PipelineEnv where
  avatarEncode : Except String String
  clothesEncode : Except String (List String)
  tryOnNet : FetchResult TryOnResponse
  videoNet : FetchResult VideoLoopResponse
  videoFileExists : Bool
  videoFileSize : Nat
  deriving DecidableEq, Repr

/-- How one `handleGenerate` run ends: skipped by the entry guard,
completed, or aborted by a caught error (the catch block logs the caught
message and alerts a generic failure text). -/
inductive PipelineOutcome where
  | skipped
  | success
  | failure (caught : String)
  deriving DecidableEq, Repr

/-- Argument recorded for the `addToHistory` call of a successful run. -/
structure HistoryAdd where
  kind : String
  uri : String
  thumbnail : Option String
  deriving DecidableEq, Repr

/-- Observable record of one `handleGenerate` run: its outcome, the
result of the try-on step (none when never reached), the result of the
video step (none when never dispatched), the number of network calls made
to the video endpoint, the value passed to `setResultUri` (none when the
setter is never called in the run), and the history entry committed. -/
structure PipelineRun where
  outcome : PipelineOutcome
  tryOnStep : Option (Except String TryOnResponse)
  videoStep : Option (Except String VideoLoopResponse)
  videoCalls : Nat
  resultUri : Option String
  historyAdded : Option HistoryAdd
  deriving DecidableEq, Repr

/-- A `handleGenerate` run that ended in the catch block. -/
def failedRun (caught : String) (tryOnStep : Option (Except String TryOnResponse))
    (videoStep : Option (Except String VideoLoopResponse)) (videoCalls : Nat) :
    PipelineRun :=
  { outcome := .failure caught, tryOnStep := tryOnStep, videoStep := videoStep,
    videoCalls := videoCalls, resultUri := none, historyAdded := none }

/-- `handleGenerate` from `index.tsx` (lines 594-699). The guard returns
immediately unless `canGenerate` holds and no generation is in flight.
Inside the try block: the avatar image and the selected garments are
base64-encoded, `generateTryOn` is called, its output image becomes the
data-URI result; in video mode `generateVideoLoop` is chained on the
try-on output image with mode 360, the first frame (when non-empty)
becomes the thumbnail, and the video payload is written to a cache file
that must exist and be non-empty. Only after all steps succeed are
`setResultUri` and `addToHistory` invoked. Any thrown error lands in the
catch block, which alerts and commits nothing. -/
def handleGenerate (canGenerate : Bool) (isGenerating : Bool)
    (mode : GenerationMode) (env : PipelineEnv) : PipelineRun :=
  if !canGenerate || isGenerating then
    { outcome := .skipped, tryOnStep := none, videoStep := none,
      videoCalls := 0, resultUri := none, historyAdded := none }
  else
    match env.avatarEncode with
    | .error e => failedRun e none none 0
    | .ok avatarB64 =>
      match env.clothesEncode with
      | .error e => failedRun e none none 0
      | .ok clothesB64 =>
        match generateTryOn
            { avatar_b64 := avatarB64, clothes_b64 := clothesB64,
              compose := none, seed := none } env.tryOnNet with
        | (.error e, _) => failedRun e (some (.error e)) none 0
        | (.ok tryOnResult, _) =>
          let finalUri := base64ToDataUri tryOnResult.image_b64 "image/png"
          match mode with
          | .image =>
              { outcome := .success, tryOnStep := some (.ok tryOnResult),
                videoStep := none, videoCalls := 0,
                resultUri := some finalUri,
                historyAdded := some
                  { kind := "image", uri := finalUri, thumbnail := none } }
          | .video =>
            match generateVideoLoop
                { image_b64 := tryOnResult.image_b64, mode := some "360",
                  seconds := none, seed := none } env.videoNet with
            | (.error e, calls) =>
                failedRun e (some (.ok tryOnResult)) (some (.error e)) calls
            | (.ok videoResult, calls) =>
              let videoThumbnail :=
                if videoResult.first_frame_b64 = "" then none
                else some (base64ToDataUri videoResult.first_frame_b64 "image/png")
              if !env.videoFileExists || env.videoFileSize = 0 then
                failedRun "Video file was not saved correctly"
                  (some (.ok tryOnResult)) (some (.ok videoResult)) calls
              else
                { outcome := .success, tryOnStep := some (.ok tryOnResult),
                  videoStep := some (.ok videoResult), videoCalls := calls,
                  resultUri := some "cache/vto_video.mp4",
                  historyAdded := some
                    { kind := "video", uri := "cache/vto_video.mp4",
                      thumbnail := videoThumbnail } }

/-! ## Spec-side formulations for the error-normalization claim -/

/-- Spec formulation: the dot-joined field path of a validation entry. -/
def locPath (v : ValidationEntry) : String :=
  String.intercalate "." (v.loc.getD [])

/-- Spec formulation: the message of a validation entry. -/
def entryMsg (v : ValidationEntry) : String :=
  v.msg.getD ""

/-- A validation entry with a present non-empty path and a present
non-empty message. -/
def wellFormedEntry (v : ValidationEntry) : Bool :=
  match v.loc, v.msg with
  | some l, some m => (String.intercalate "." l != "") && (m != "")
  | _, _ => false

/-! ## Operation sequences over the store -/

/-- A garment-selection store action: `selectClothingItem` or
`deselectClothingItem`. -/
inductive SelectionOp where
  | select (id : String)
  | deselect (id : String)
  deriving DecidableEq, Repr

/-- Apply one selection action to the store. -/
def applySelectionOp (s : PlaygroundState) (op : SelectionOp) : PlaygroundState :=
  match op with
  | .select id => selectClothingItem id s
  | .deselect id => deselectClothingItem id s

/-! ## Concrete data for witnesses -/

/-- A concrete history item used by the C1 witness. -/
def c1Item (n : Nat) : HistoryItem :=
  { id := "", kind := "image", uri := "u", thumbnail := none, timestamp := n }

/-- A concrete full history of 50 distinct items. -/
def c1Acc : List HistoryItem := (List.range 50).map c1Item

/-- A concrete store state with one selected garment, for witnesses. -/
def w10State : PlaygroundState :=
  { photos := [], selectedPhotoId := none, clothingItems := [],
    clothingSets := [], selectedClothingIds := ["g1"], avatars := [],
    selectedAvatarId := none, tryOnResults := [], selectedTryOnId := none,
    animations := [], selectedAnimationId := none, generationHistory := [],
    isLoading := false, currentTab := "photos" }

/-- A concrete avatar holding a stored error message, for C7. -/
def c7Avatar : Avatar :=
  { id := "a1", name := "A", sourcePhotoId := "p1", perspective := "front",
    state := "base", backgroundType := "white", imageUri := "img-old",
    thumbnail := none, status := .failed, errorMessage := some "boom",
    createdAt := 1, updatedAt := 1 }

/-- A concrete try-on result, for the C7 witness. -/
def c7TryOn : TryOnResult :=
  { id := "t1", avatarId := "a1", clothingItemIds := ["g1"],
    perspective := "front", imageUri := "try-old", thumbnail := none,
    status := .processing, errorMessage := none, createdAt := 2, updatedAt := 2 }

/-- A concrete animation result, for the C7 witness. -/
def c7Anim : AnimationResult :=
  { id := "n1", name := "N", sourceType := "tryon", sourceId := "t1",
    config := { kind := "loop", keyframes := [], duration := 3, fps := 30,
                loop := true },
    videoUri := some "vid-old", gifUri := none, status := .processing,
    errorMessage := none, createdAt := 3, updatedAt := 3 }

/-- A concrete store state holding one avatar, one try-on result and one
animation, for C7. -/
def c7State : PlaygroundState :=
  { photos := [], selectedPhotoId := none, clothingItems := [],
    clothingSets := [], selectedClothingIds := [], avatars := [c7Avatar],
    selectedAvatarId := some "a1", tryOnResults := [c7TryOn],
    selectedTryOnId := none, animations := [c7Anim],
    selectedAnimationId := none, generationHistory := [],
    isLoading := false, currentTab := "photos" }

/-- A concrete pipeline oracle whose try-on fetch fails, for C3. -/
def c3Env : PipelineEnv :=
  { avatarEncode := .ok "AV", clothesEncode := .ok ["C0"],
    tryOnNet := .httpError 500 "Internal Server Error"
      (.parsed { detail := .str "tryon down", message := none }),
    videoNet := .ok
      { video_b64 := "V", first_frame_b64 := "F", duration_seconds := 4,
        width := 1, height := 1, mode := "360", meta := none },
    videoFileExists := true, videoFileSize := 1 }

/-- A concrete pipeline oracle whose try-on fetch succeeds and whose
video fetch fails, for C4. -/
def c4Env : PipelineEnv :=
  { avatarEncode := .ok "AV", clothesEncode := .ok ["C0"],
    tryOnNet := .ok
      { image_b64 := "TRY", clothing_composite_b64 := none, meta := none },
    videoNet := .httpError 500 "Internal Server Error"
      (.parsed { detail := .str "video backend down", message := none }),
    videoFileExists := true, videoFileSize := 1 }

/-! ## Claims -/

/-- C1: starting from any store whose history has length at most 50,
every sequence of `addToHistory` calls keeps the history length at most
50; each new item lands at index 0; and an insertion into a full
50-element history keeps items 0..48, drops the last (oldest) element,
so after inserting a 51st item the oldest of the original 50 is absent
and the new item is at index 0. -/
theorem C1_addToHistory_bounded_fifo
    (items : List HistoryItem) (h0 : List HistoryItem)
    (it : HistoryItem) (acc : List HistoryItem) (old : HistoryItem)
    (hlen : h0.length ≤ 50) (hacc : acc.length = 50)
    (hnd : (it :: acc).Nodup) (hold : acc.getLast? = some old) :
    (items.foldl (fun h i => addToHistory i h) h0).length ≤ 50
    ∧ (addToHistory it h0).head? = some it
    ∧ (addToHistory it acc).head? = some it
    ∧ addToHistory it acc = it :: acc.dropLast
    ∧ old ∉ addToHistory it acc := by
  have step : ∀ (h : List HistoryItem) (i : HistoryItem),
      (addToHistory i h).length ≤ 50 := by
    intro h i
    simp only [addToHistory, List.length_take, List.length_cons]
    omega
  have bound : ∀ (is : List HistoryItem) (h : List HistoryItem),
      h.length ≤ 50 → (is.foldl (fun h i => addToHistory i h) h).length ≤ 50 := by
    intro is
    induction is with
    | nil => intro h hh; simpa using hh
    | cons i rest ih => intro h _; exact ih _ (step h i)
  have h49 : (50 : Nat) = 49 + 1 := rfl
  have heq : addToHistory it acc = it :: acc.dropLast := by
    simp only [addToHistory, h49, List.take_succ_cons, List.dropLast_eq_take, hacc]
  have hne : acc ≠ [] := by
    intro h
    rw [h] at hacc
    simp at hacc
  have hold2 : old = acc.getLast hne := by
    have hg := List.getLast?_eq_getLast_of_ne_nil hne
    rw [hold] at hg
    exact Option.some_inj.mp hg
  have hsplit : acc.dropLast ++ [old] = acc := by
    rw [hold2]
    exact List.dropLast_append_getLast hne
  have hndacc : acc.Nodup := (List.nodup_cons.mp hnd).2
  have hnotit : it ∉ acc := (List.nodup_cons.mp hnd).1
  have holdmem : old ∈ acc := by
    rw [← hsplit]
    simp
  have holddrop : old ∉ acc.dropLast := by
    have h2 : (acc.dropLast ++ [old]).Nodup := by
      rw [hsplit]
      exact hndacc
    have hdisj := (List.nodup_append.mp h2).2.2
    intro hmem
    exact hdisj hmem (by simp)
  have hhead : ∀ (l : List HistoryItem), (addToHistory it l).head? = some it := by
    intro l
    simp only [addToHistory, h49, List.take_succ_cons, List.head?_cons]
  refine ⟨bound items h0 hlen, hhead h0, hhead acc, heq, ?_⟩
  rw [heq]
  simp only [List.mem_cons, not_or]
  refine ⟨?_, holddrop⟩
  intro h1
  exact hnotit (h1 ▸ holdmem)

/-- Witness for C1: inserting a 51st item into a concrete full history
keeps the bound, puts the new item at index 0, and evicts the oldest. -/
theorem C1_addToHistory_bounded_fifo_witness :
    (([c1Item 50].foldl (fun h i => addToHistory i h) []).length ≤ 50)
    ∧ (addToHistory (c1Item 50) ([] : List HistoryItem)).head? = some (c1Item 50)
    ∧ (addToHistory (c1Item 50) c1Acc).head? = some (c1Item 50)
    ∧ addToHistory (c1Item 50) c1Acc = c1Item 50 :: c1Acc.dropLast
    ∧ c1Item 49 ∉ addToHistory (c1Item 50) c1Acc :=
  C1_addToHistory_bounded_fifo [c1Item 50] [] (c1Item 50) c1Acc (c1Item 49)
    (by decide) (by decide) (by decide) (by decide)

/-- C10: `selectClothingItem` with an id already present leaves the state
unchanged (idempotence of re-selection), and no sequence of
select/deselect actions starting from a duplicate-free selection ever
introduces a duplicate id into `selectedClothingIds`. -/
theorem C10_selectClothingItem_idempotent_nodup
    (s : PlaygroundState) (id : String) (ops : List SelectionOp)
    (hmem : id ∈ s.selectedClothingIds) (hnd : s.selectedClothingIds.Nodup) :
    selectClothingItem id s = s
    ∧ (ops.foldl applySelectionOp s).selectedClothingIds.Nodup := by
  have hmono : ∀ (t : PlaygroundState) (op : SelectionOp),
      t.selectedClothingIds.Nodup →
      (applySelectionOp t op).selectedClothingIds.Nodup := by
    intro t op ht
    match op with
    | .select i =>
      simp only [applySelectionOp, selectClothingItem]
      by_cases hm : i ∈ t.selectedClothingIds
      · simpa [hm] using ht
      · simp [hm, List.nodup_append, ht]
    | .deselect i =>
      simpa [applySelectionOp, deselectClothingItem] using ht.filter _
  constructor
  · simp [selectClothingItem, hmem]
  · have inv : ∀ (l : List SelectionOp) (t : PlaygroundState),
        t.selectedClothingIds.Nodup →
        (l.foldl applySelectionOp t).selectedClothingIds.Nodup := by
      intro l
      induction l with
      | nil => intro t ht; simpa using ht
      | cons op rest ih => intro t ht; exact ih _ (hmono t op ht)
    exact inv ops s hnd

/-- Witness for C10 at a concrete state and action sequence. -/
theorem C10_selectClothingItem_idempotent_nodup_witness :
    selectClothingItem "g1" w10State = w10State
    ∧ (([SelectionOp.select "g2", SelectionOp.select "g2",
         SelectionOp.deselect "g1"].foldl applySelectionOp
          w10State).selectedClothingIds).Nodup :=
  C10_selectClothingItem_idempotent_nodup w10State "g1"
    [SelectionOp.select "g2", SelectionOp.select "g2", SelectionOp.deselect "g1"]
    (by decide) (by decide)

/-- C7 counterexample: the claim says a status update leaves the error
message untouched when no error argument is supplied. On the concrete
store `c7State`, whose only avatar carries the stored error message
`boom`, `updateAvatarStatus` with no imageUri and no error argument
clears the error message to none. -/
theorem C7_counterexample :
    c7State.avatars.map (fun a => a.errorMessage) = [some "boom"]
    ∧ (updateAvatarStatus "a1" GenerationStatus.completed none none 5
          c7State).avatars.map (fun a => a.errorMessage) = [none] := by
  decide

/-- C7 (amended): each status-update operation is a partial merge for the
output locator only — the locator keeps its old value when the argument
is absent and takes the argument when supplied — while status and the
updated timestamp are always overwritten and the error-message field is
always overwritten with the supplied argument, so an omitted error
argument clears any stored error message. All other fields of the
matched entity, all entities with a different id, and all other store
slices are unchanged. -/
theorem C7_statusUpdate_partial_merge
    (s : PlaygroundState) (id : String) (status : GenerationStatus)
    (uriArg errArg : Option String) (now : Nat)
    (a : Avatar) (r : TryOnResult) (an : AnimationResult)
    (ha : a ∈ s.avatars) (hr : r ∈ s.tryOnResults) (han : an ∈ s.animations) :
    (a.id = id → ∃ a2 ∈ (updateAvatarStatus id status uriArg errArg now s).avatars,
        a2.status = status ∧ a2.updatedAt = now ∧ a2.errorMessage = errArg
        ∧ a2.imageUri = uriArg.getD a.imageUri
        ∧ a2.id = a.id ∧ a2.name = a.name ∧ a2.sourcePhotoId = a.sourcePhotoId
        ∧ a2.perspective = a.perspective ∧ a2.state = a.state
        ∧ a2.backgroundType = a.backgroundType ∧ a2.thumbnail = a.thumbnail
        ∧ a2.createdAt = a.createdAt)
    ∧ (a.id ≠ id → a ∈ (updateAvatarStatus id status uriArg errArg now s).avatars)
    ∧ (r.id = id → ∃ r2 ∈ (updateTryOnStatus id status uriArg errArg now s).tryOnResults,
        r2.status = status ∧ r2.updatedAt = now ∧ r2.errorMessage = errArg
        ∧ r2.imageUri = uriArg.getD r.imageUri
        ∧ r2.id = r.id ∧ r2.avatarId = r.avatarId
        ∧ r2.clothingItemIds = r.clothingItemIds
        ∧ r2.perspective = r.perspective ∧ r2.thumbnail = r.thumbnail
        ∧ r2.createdAt = r.createdAt)
    ∧ (r.id ≠ id → r ∈ (updateTryOnStatus id status uriArg errArg now s).tryOnResults)
    ∧ (an.id = id → ∃ an2 ∈ (updateAnimationStatus id status uriArg errArg now s).animations,
        an2.status = status ∧ an2.updatedAt = now ∧ an2.errorMessage = errArg
        ∧ an2.videoUri = (match uriArg with | some v => some v | none => an.videoUri)
        ∧ an2.id = an.id ∧ an2.name = an.name ∧ an2.sourceType = an.sourceType
        ∧ an2.sourceId = an.sourceId ∧ an2.config = an.config
        ∧ an2.gifUri = an.gifUri ∧ an2.createdAt = an.createdAt)
    ∧ (an.id ≠ id → an ∈ (updateAnimationStatus id status uriArg errArg now s).animations)
    ∧ (updateAvatarStatus id status uriArg errArg now s).tryOnResults = s.tryOnResults
    ∧ (updateAvatarStatus id status uriArg errArg now s).animations = s.animations
    ∧ (updateAvatarStatus id status uriArg errArg now s).clothingItems = s.clothingItems
    ∧ (updateAvatarStatus id status uriArg errArg now s).generationHistory = s.generationHistory
    ∧ (updateAvatarStatus id status uriArg errArg now s).selectedAvatarId = s.selectedAvatarId
    ∧ (updateTryOnStatus id status uriArg errArg now s).avatars = s.avatars
    ∧ (updateAnimationStatus id status uriArg errArg now s).avatars = s.avatars := by
  refine ⟨?_, ?_, ?_, ?_, ?_, ?_, rfl, rfl, rfl, rfl, rfl, rfl, rfl⟩
  · intro hid
    simp only [updateAvatarStatus]
    refine ⟨_, List.mem_map_of_mem _ ha, ?_⟩
    simp [hid]
  · intro hid
    simp only [updateAvatarStatus]
    have : (fun avatar => if avatar.id = id then
        { avatar with
            status := status,
            imageUri := uriArg.getD avatar.imageUri,
            errorMessage := errArg,
            updatedAt := now }
      else avatar) a = a := by
      simp [hid]
    exact this ▸ List.mem_map_of_mem _ ha
  · intro hid
    simp only [updateTryOnStatus]
    refine ⟨_, List.mem_map_of_mem _ hr, ?_⟩
    simp [hid]
  · intro hid
    simp only [updateTryOnStatus]
    have : (fun result => if result.id = id then
        { result with
            status := status,
            imageUri := uriArg.getD result.imageUri,
            errorMessage := errArg,
            updatedAt := now }
      else result) r = r := by
      simp [hid]
    exact this ▸ List.mem_map_of_mem _ hr
  · intro hid
    simp only [updateAnimationStatus]
    refine ⟨_, List.mem_map_of_mem _ han, ?_⟩
    simp [hid]
  · intro hid
    simp only [updateAnimationStatus]
    have : (fun anim => if anim.id = id then
        { anim with
            status := status,
            videoUri := match uriArg with
              | some v => some v
              | none => anim.videoUri,
            errorMessage := errArg,
            updatedAt := now }
      else anim) an = an := by
      simp [hid]
    exact this ▸ List.mem_map_of_mem _ han

/-- Witness for C7 on the concrete store `c7State`: every hypothesis is
discharged at a concrete value with id `t1` matching the try-on entity. -/
theorem C7_statusUpdate_partial_merge_witness :
    (c7Avatar.id = "t1" → ∃ a2 ∈ (updateAvatarStatus "t1" GenerationStatus.completed
          (some "new") (some "err") 9 c7State).avatars,
        a2.status = GenerationStatus.completed ∧ a2.updatedAt = 9
        ∧ a2.errorMessage = some "err"
        ∧ a2.imageUri = (Option.some "new").getD c7Avatar.imageUri
        ∧ a2.id = c7Avatar.id ∧ a2.name = c7Avatar.name
        ∧ a2.sourcePhotoId = c7Avatar.sourcePhotoId
        ∧ a2.perspective = c7Avatar.perspective ∧ a2.state = c7Avatar.state
        ∧ a2.backgroundType = c7Avatar.backgroundType
        ∧ a2.thumbnail = c7Avatar.thumbnail
        ∧ a2.createdAt = c7Avatar.createdAt)
    ∧ (c7Avatar.id ≠ "t1" → c7Avatar ∈ (updateAvatarStatus "t1"
          GenerationStatus.completed (some "new") (some "err") 9 c7State).avatars)
    ∧ (c7TryOn.id = "t1" → ∃ r2 ∈ (updateTryOnStatus "t1" GenerationStatus.completed
          (some "new") (some "err") 9 c7State).tryOnResults,
        r2.status = GenerationStatus.completed ∧ r2.updatedAt = 9
        ∧ r2.errorMessage = some "err"
        ∧ r2.imageUri = (Option.some "new").getD c7TryOn.imageUri
        ∧ r2.id = c7TryOn.id ∧ r2.avatarId = c7TryOn.avatarId
        ∧ r2.clothingItemIds = c7TryOn.clothingItemIds
        ∧ r2.perspective = c7TryOn.perspective ∧ r2.thumbnail = c7TryOn.thumbnail
        ∧ r2.createdAt = c7TryOn.createdAt)
    ∧ (c7TryOn.id ≠ "t1" → c7TryOn ∈ (updateTryOnStatus "t1"
          GenerationStatus.completed (some "new") (some "err") 9 c7State).tryOnResults)
    ∧ (c7Anim.id = "t1" → ∃ an2 ∈ (updateAnimationStatus "t1" GenerationStatus.completed
          (some "new") (some "err") 9 c7State).animations,
        an2.status = GenerationStatus.completed ∧ an2.updatedAt = 9
        ∧ an2.errorMessage = some "err"
        ∧ an2.videoUri = (match (Option.some "new") with
            | some v => some v
            | none => c7Anim.videoUri)
        ∧ an2.id = c7Anim.id ∧ an2.name = c7Anim.name
        ∧ an2.sourceType = c7Anim.sourceType
        ∧ an2.sourceId = c7Anim.sourceId ∧ an2.config = c7Anim.config
        ∧ an2.gifUri = c7Anim.gifUri ∧ an2.createdAt = c7Anim.createdAt)
    ∧ (c7Anim.id ≠ "t1" → c7Anim ∈ (updateAnimationStatus "t1"
          GenerationStatus.completed (some "new") (some "err") 9 c7State).animations)
    ∧ (updateAvatarStatus "t1" GenerationStatus.completed (some "new") (some "err") 9
          c7State).tryOnResults = c7State.tryOnResults
    ∧ (updateAvatarStatus "t1" GenerationStatus.completed (some "new") (some "err") 9
          c7State).animations = c7State.animations
    ∧ (updateAvatarStatus "t1" GenerationStatus.completed (some "new") (some "err") 9
          c7State).clothingItems = c7State.clothingItems
    ∧ (updateAvatarStatus "t1" GenerationStatus.completed (some "new") (some "err") 9
          c7State).generationHistory = c7State.generationHistory
    ∧ (updateAvatarStatus "t1" GenerationStatus.completed (some "new") (some "err") 9
          c7State).selectedAvatarId = c7State.selectedAvatarId
    ∧ (updateTryOnStatus "t1" GenerationStatus.completed (some "new") (some "err") 9
          c7State).avatars = c7State.avatars
    ∧ (updateAnimationStatus "t1" GenerationStatus.completed (some "new") (some "err") 9
          c7State).avatars = c7State.avatars :=
  C7_statusUpdate_partial_merge c7State "t1" GenerationStatus.completed
    (some "new") (some "err") 9 c7Avatar c7TryOn c7Anim
    (by decide) (by decide) (by decide)

/-- C8: the persisted subset of the store is exactly the generation
history plus the clothing items marked local: the history slice is passed
through unchanged, a clothing item is persisted exactly when it is in the
store and has `isLocal` set (so remote-catalog items are dropped), and
the persisted value ignores every other slice — replacing photos,
selections, avatars, try-on results, animations, sets, and UI state
leaves the persisted value unchanged, and `PersistedState` has no other
fields. -/
theorem C8_partialize_persists_history_and_local_items
    (s : PlaygroundState) (item : ClothingItem)
    (photos : List UserPhoto) (selP : Option String) (sets : List ClothingSet)
    (selC : List String) (avs : List Avatar) (selA : Option String)
    (trs : List TryOnResult) (selT : Option String)
    (ans : List AnimationResult) (selN : Option String)
    (ld : Bool) (tab : String) :
    (partialize s).generationHistory = s.generationHistory
    ∧ (item ∈ (partialize s).clothingItems
        ↔ item ∈ s.clothingItems ∧ item.isLocal = true)
    ∧ partialize
        { s with
            photos := photos,
            selectedPhotoId := selP,
            clothingSets := sets,
            selectedClothingIds := selC,
            avatars := avs,
            selectedAvatarId := selA,
            tryOnResults := trs,
            selectedTryOnId := selT,
            animations := ans,
            selectedAnimationId := selN,
            isLoading := ld,
            currentTab := tab }
      = partialize s := by
  refine ⟨rfl, ?_, rfl⟩
  simp [partialize, List.mem_filter]

/-- C6: a try-on call with an empty garment list, and likewise one with
an empty avatar payload, fails locally: the validation error is thrown
before any file or network work, so the try-on endpoint call count is
zero and the error is one of the two local validation messages, not a
remote error. -/
theorem C6_tryOn_empty_inputs_fail_locally
    (req : TryOnGenerationRequest) (net : FetchResult TryOnResponse)
    (h : req.clothes_b64 = [] ∨ req.avatar_b64 = "") :
    (generateTryOn req net).snd = 0
    ∧ ((generateTryOn req net).fst = Except.error "Avatar image is required"
        ∨ (generateTryOn req net).fst
            = Except.error "At least one clothing item is required") := by
  rcases h with h | h
  · by_cases ha : req.avatar_b64 = ""
    · simp [generateTryOn, ha]
    · simp [generateTryOn, ha, h]
  · simp [generateTryOn, h]

/-- Witness for C6: a concrete try-on request with garments absent makes
no network call even though the oracle would answer successfully. -/
theorem C6_tryOn_empty_inputs_fail_locally_witness :
    (generateTryOn
        { avatar_b64 := "AV", clothes_b64 := [], compose := none, seed := none }
        (FetchResult.ok
          { image_b64 := "X", clothing_composite_b64 := none, meta := none })).snd = 0
    ∧ ((generateTryOn
          { avatar_b64 := "AV", clothes_b64 := [], compose := none, seed := none }
          (FetchResult.ok
            { image_b64 := "X", clothing_composite_b64 := none, meta := none })).fst
        = Except.error "Avatar image is required"
      ∨ (generateTryOn
          { avatar_b64 := "AV", clothes_b64 := [], compose := none, seed := none }
          (FetchResult.ok
            { image_b64 := "X", clothing_composite_b64 := none, meta := none })).fst
        = Except.error "At least one clothing item is required") :=
  C6_tryOn_empty_inputs_fail_locally
    { avatar_b64 := "AV", clothes_b64 := [], compose := none, seed := none }
    (FetchResult.ok
      { image_b64 := "X", clothing_composite_b64 := none, meta := none })
    (Or.inl rfl)

/-- C2 counterexample: on a non-success HTTP status no generation call
returns a result value carrying success=false — each call throws (the
thrown JavaScript Error is `Except.error` in this model), carrying the
normalized message. Shown here at concrete inputs for all three
operations. -/
theorem C2_counterexample :
    (generateTryOn
        { avatar_b64 := "AV", clothes_b64 := ["C0"], compose := none, seed := none }
        (FetchResult.httpError 422 "Unprocessable Entity"
          (ErrorBodyParse.parsed
            { detail := DetailField.arr
                [{ loc := some ["clothes"], msg := some "too short" }],
              message := none }))).fst
      = Except.error "clothes: too short"
    ∧ (generateAvatar
        { selfie_b64 := "S", posture_b64 := "P", background := none,
          keep_clothes := none }
        (FetchResult.httpError 500 "Internal Server Error"
          ErrorBodyParse.unparseable)).fst
      = Except.error "Internal Server Error"
    ∧ (generateVideoLoop
        { image_b64 := "I", mode := none, seconds := none, seed := none }
        (FetchResult.httpError 500 "Internal Server Error"
          ErrorBodyParse.unparseable)).fst
      = Except.error "Internal Server Error" := by
  refine ⟨rfl, rfl, rfl⟩

/-- C2 (amended): on a remote response with non-success HTTP status, each
generation call whose inputs pass local validation and file preparation
makes exactly one network call and then throws an Error carrying the
normalized message — `Except.error` in this model — instead of returning
a value; the exception is caught by the calling pipeline, not converted
into a success=false result inside the client. -/
theorem C2_generation_calls_throw_on_http_error
    (reqA : AvatarGenerationRequest) (reqT : TryOnGenerationRequest)
    (reqV : VideoLoopRequest) (status : Nat) (statusText : String)
    (body : ErrorBodyParse)
    (hA1 : stripDataUriScheme reqA.selfie_b64 ≠ "")
    (hA2 : stripDataUriScheme reqA.posture_b64 ≠ "")
    (hT1 : reqT.avatar_b64 ≠ "") (hT2 : reqT.clothes_b64 ≠ [])
    (hT3 : prepareTryOnFiles reqT = Except.ok ())
    (hV : stripDataUriScheme reqV.image_b64 ≠ "") :
    generateAvatar reqA (.httpError status statusText body)
      = (Except.error (avatarErrorMessage statusText body), 1)
    ∧ generateTryOn reqT (.httpError status statusText body)
      = (Except.error (tryOnErrorMessage status statusText body), 1)
    ∧ generateVideoLoop reqV (.httpError status statusText body)
      = (Except.error (videoErrorMessage statusText body), 1) := by
  refine ⟨?_, ?_, ?_⟩
  · simp [generateAvatar, base64ToTempFile, hA1, hA2]
  · simp [generateTryOn, hT1, hT2, hT3]
  · simp [generateVideoLoop, base64ToTempFile, hV]

/-- Witness for C2 at concrete requests and a concrete 503 response. -/
theorem C2_generation_calls_throw_on_http_error_witness :
    generateAvatar
        { selfie_b64 := "S", posture_b64 := "P", background := none,
          keep_clothes := none }
        (.httpError 503 "Service Unavailable"
          (ErrorBodyParse.parsed { detail := DetailField.str "down", message := none }))
      = (Except.error (avatarErrorMessage "Service Unavailable"
          (ErrorBodyParse.parsed { detail := DetailField.str "down", message := none })), 1)
    ∧ generateTryOn
        { avatar_b64 := "AV", clothes_b64 := ["C0"], compose := none, seed := none }
        (.httpError 503 "Service Unavailable"
          (ErrorBodyParse.parsed { detail := DetailField.str "down", message := none }))
      = (Except.error (tryOnErrorMessage 503 "Service Unavailable"
          (ErrorBodyParse.parsed { detail := DetailField.str "down", message := none })), 1)
    ∧ generateVideoLoop
        { image_b64 := "I", mode := none, seconds := none, seed := none }
        (.httpError 503 "Service Unavailable"
          (ErrorBodyParse.parsed { detail := DetailField.str "down", message := none }))
      = (Except.error (videoErrorMessage "Service Unavailable"
          (ErrorBodyParse.parsed { detail := DetailField.str "down", message := none })), 1) :=
  C2_generation_calls_throw_on_http_error
    { selfie_b64 := "S", posture_b64 := "P", background := none, keep_clothes := none }
    { avatar_b64 := "AV", clothes_b64 := ["C0"], compose := none, seed := none }
    { image_b64 := "I", mode := none, seconds := none, seed := none }
    503 "Service Unavailable"
    (ErrorBodyParse.parsed { detail := DetailField.str "down", message := none })
    (by decide) (by decide) (by decide) (by decide) (by decide) (by decide)

/-- C5 counterexample: the claimed normalization is not uniform across
the three operations. A video-loop call answered with HTTP 422 and the
single validation entry with loc path `clothes` and message `too short`
yields the message `too short` — the bare entry message with no field
path — not the claimed `clothes: too short`. -/
theorem C5_counterexample :
    (generateVideoLoop
        { image_b64 := "I", mode := none, seconds := none, seed := none }
        (FetchResult.httpError 422 "Unprocessable Entity"
          (ErrorBodyParse.parsed
            { detail := DetailField.arr
                [{ loc := some ["clothes"], msg := some "too short" }],
              message := none }))).fst
      = Except.error "too short"
    ∧ "too short" ≠ "clothes: too short" := by
  refine ⟨rfl, by decide⟩

/-- C5 (amended): error normalization is per-operation rather than
uniform. For well-formed validation entries (present non-empty path and
message): the try-on and avatar calls join entries as path-colon-message
with semicolons, while the video-loop call joins only the bare entry
messages. A single string reason is used verbatim by all three. When the
body cannot be parsed, the try-on call falls back to
`Server error: <status> <statusText>`, while the avatar and video-loop
calls fall back to the bare status text. The try-on call answered with
HTTP 422 and entry loc=[clothes], msg=`too short` yields
`clothes: too short`. -/
theorem C5_error_normalization_per_operation
    (status : Nat) (statusText : String) (entries : List ValidationEntry)
    (reason : String)
    (hwf : ∀ v ∈ entries, wellFormedEntry v = true) :
    tryOnErrorMessage status statusText
        (.parsed { detail := .arr entries, message := none })
      = String.intercalate "; "
          (entries.map (fun v => locPath v ++ ": " ++ entryMsg v))
    ∧ avatarErrorMessage statusText
        (.parsed { detail := .arr entries, message := none })
      = String.intercalate "; "
          (entries.map (fun v => locPath v ++ ": " ++ entryMsg v))
    ∧ videoErrorMessage statusText
        (.parsed { detail := .arr entries, message := none })
      = String.intercalate "; " (entries.map entryMsg)
    ∧ tryOnErrorMessage status statusText
        (.parsed { detail := .str reason, message := none }) = reason
    ∧ avatarErrorMessage statusText
        (.parsed { detail := .str reason, message := none }) = reason
    ∧ videoErrorMessage statusText
        (.parsed { detail := .str reason, message := none }) = reason
    ∧ tryOnErrorMessage status statusText .unparseable
        = "Server error: " ++ toString status ++ " " ++ statusText
    ∧ avatarErrorMessage statusText .unparseable = statusText
    ∧ videoErrorMessage statusText .unparseable = statusText
    ∧ tryOnErrorMessage 422 "Unprocessable Entity"
        (.parsed
          { detail := DetailField.arr
              [{ loc := some ["clothes"], msg := some "too short" }],
            message := none })
      = "clothes: too short" := by
  have hent : ∀ v ∈ entries,
      tryOnEntryText v = locPath v ++ ": " ++ entryMsg v
      ∧ avatarEntryText v = locPath v ++ ": " ++ entryMsg v
      ∧ videoEntryText v = entryMsg v := by
    intro v hv
    have h := hwf v hv
    rcases hloc : v.loc with _ | l <;> rcases hmsg : v.msg with _ | m <;>
      simp [wellFormedEntry, hloc, hmsg] at h
    refine ⟨?_, ?_, ?_⟩
    · simp [tryOnEntryText, locPath, entryMsg, hloc, hmsg, h.1, h.2]
    · simp [avatarEntryText, locPath, entryMsg, hloc, hmsg, h.1]
    · simp [videoEntryText, entryMsg, hmsg, h.2]
  refine ⟨?_, ?_, ?_, rfl, rfl, rfl, rfl, rfl, rfl, by rfl⟩
  · simp only [tryOnErrorMessage]
    exact congrArg (String.intercalate "; ")
      (List.map_congr_left (fun v hv => (hent v hv).1))
  · simp only [avatarErrorMessage]
    exact congrArg (String.intercalate "; ")
      (List.map_congr_left (fun v hv => (hent v hv).2.1))
  · simp only [videoErrorMessage]
    exact congrArg (String.intercalate "; ")
      (List.map_congr_left (fun v hv => (hent v hv).2.2))

/-- Witness for C5 at the concrete 422 validation entry. -/
theorem C5_error_normalization_per_operation_witness :
    tryOnErrorMessage 422 "Unprocessable Entity"
        (.parsed
          { detail := DetailField.arr
              [{ loc := some ["clothes"], msg := some "too short" }],
            message := none })
      = String.intercalate "; "
          ([({ loc := some ["clothes"], msg := some "too short" } : ValidationEntry)].map
            (fun v => locPath v ++ ": " ++ entryMsg v))
    ∧ avatarErrorMessage "Unprocessable Entity"
        (.parsed
          { detail := DetailField.arr
              [{ loc := some ["clothes"], msg := some "too short" }],
            message := none })
      = String.intercalate "; "
          ([({ loc := some ["clothes"], msg := some "too short" } : ValidationEntry)].map
            (fun v => locPath v ++ ": " ++ entryMsg v))
    ∧ videoErrorMessage "Unprocessable Entity"
        (.parsed
          { detail := DetailField.arr
              [{ loc := some ["clothes"], msg := some "too short" }],
            message := none })
      = String.intercalate "; "
          ([({ loc := some ["clothes"], msg := some "too short" } : ValidationEntry)].map entryMsg)
    ∧ tryOnErrorMessage 422 "Unprocessable Entity"
        (.parsed { detail := .str "bad request", message := none }) = "bad request"
    ∧ avatarErrorMessage "Unprocessable Entity"
        (.parsed { detail := .str "bad request", message := none }) = "bad request"
    ∧ videoErrorMessage "Unprocessable Entity"
        (.parsed { detail := .str "bad request", message := none }) = "bad request"
    ∧ tryOnErrorMessage 422 "Unprocessable Entity" .unparseable
        = "Server error: " ++ toString 422 ++ " " ++ "Unprocessable Entity"
    ∧ avatarErrorMessage "Unprocessable Entity" .unparseable = "Unprocessable Entity"
    ∧ videoErrorMessage "Unprocessable Entity" .unparseable = "Unprocessable Entity"
    ∧ tryOnErrorMessage 422 "Unprocessable Entity"
        (.parsed
          { detail := DetailField.arr
              [{ loc := some ["clothes"], msg := some "too short" }],
            message := none })
      = "clothes: too short" :=
  C5_error_normalization_per_operation 422 "Unprocessable Entity"
    [{ loc := some ["clothes"], msg := some "too short" }] "bad request"
    (by decide)

/-- C3: in every pipeline run whose try-on step fails, the video-loop
endpoint is never called — the video call count is zero and no video
step is recorded — no result and no history entry are committed, and the
run reports the try-on failure as the caught error of the catch block. -/
theorem C3_tryOn_failure_blocks_video
    (canGenerate isGenerating : Bool) (mode : GenerationMode)
    (env : PipelineEnv) (m : String)
    (h : (handleGenerate canGenerate isGenerating mode env).tryOnStep
        = some (Except.error m)) :
    (handleGenerate canGenerate isGenerating mode env).videoCalls = 0
    ∧ (handleGenerate canGenerate isGenerating mode env).videoStep = none
    ∧ (handleGenerate canGenerate isGenerating mode env).outcome
        = PipelineOutcome.failure m
    ∧ (handleGenerate canGenerate isGenerating mode env).resultUri = none
    ∧ (handleGenerate canGenerate isGenerating mode env).historyAdded = none := by
  unfold handleGenerate at h ⊢
  by_cases hg : (!canGenerate || isGenerating) = true
  · rw [if_pos hg] at h
    simp at h
  · rw [if_neg hg] at h ⊢
    rcases hae : env.avatarEncode with e | av
    · simp only [hae] at h
      simp [failedRun] at h
    · simp only [hae] at h ⊢
      rcases hce : env.clothesEncode with e2 | cl
      · simp only [hce] at h
        simp [failedRun] at h
      · simp only [hce] at h ⊢
        rcases htr : generateTryOn
            { avatar_b64 := av, clothes_b64 := cl, compose := none, seed := none }
            env.tryOnNet with ⟨tres, tcalls⟩
        rcases tres with te | tok
        · simp only [htr] at h ⊢
          simp only [failedRun] at h ⊢
          simp at h
          subst h
          simp
        · simp only [htr] at h ⊢
          rcases mode
          · simp at h
          · rcases hvl : generateVideoLoop
                { image_b64 := tok.image_b64, mode := some "360",
                  seconds := none, seed := none } env.videoNet with ⟨vres, vcalls⟩
            rcases vres with ve | vok
            · simp only [hvl] at h ⊢
              simp [failedRun] at h
            · simp only [hvl] at h ⊢
              split at h <;> simp_all [failedRun]

/-- Witness for C3 at a concrete run whose try-on fetch answers 500. -/
theorem C3_tryOn_failure_blocks_video_witness :
    (handleGenerate true false GenerationMode.video c3Env).videoCalls = 0
    ∧ (handleGenerate true false GenerationMode.video c3Env).videoStep = none
    ∧ (handleGenerate true false GenerationMode.video c3Env).outcome
        = PipelineOutcome.failure "tryon down"
    ∧ (handleGenerate true false GenerationMode.video c3Env).resultUri = none
    ∧ (handleGenerate true false GenerationMode.video c3Env).historyAdded = none :=
  C3_tryOn_failure_blocks_video true false GenerationMode.video c3Env
    "tryon down" rfl

/-- C4 counterexample: the claim says a run whose try-on step succeeds
and whose video step fails preserves and surfaces the completed try-on
image. On the concrete oracle `c4Env` the try-on step succeeds with
image `TRY` and the video fetch fails, yet the run commits nothing: the
displayed result is never set, no history entry is created, and the
whole run ends in the catch block — the try-on image is discarded, not
surfaced. -/
theorem C4_counterexample :
    (handleGenerate true false GenerationMode.video c4Env).tryOnStep
      = some (Except.ok
          { image_b64 := "TRY", clothing_composite_b64 := none, meta := none })
    ∧ (handleGenerate true false GenerationMode.video c4Env).videoStep
      = some (Except.error "video backend down")
    ∧ (handleGenerate true false GenerationMode.video c4Env).outcome
      = PipelineOutcome.failure "video backend down"
    ∧ (handleGenerate true false GenerationMode.video c4Env).resultUri = none
    ∧ (handleGenerate true false GenerationMode.video c4Env).historyAdded = none :=
  ⟨rfl, rfl, rfl, rfl, rfl⟩

/-- C4 (amended): in every pipeline run whose try-on step succeeds and
whose video-loop step fails, the run reports the video failure as the
caught error, but the completed try-on image is discarded rather than
preserved: the displayed result is never updated and no history entry is
committed; the try-on output survives only in the transient step value
inside the run. -/
theorem C4_video_failure_discards_tryOn
    (canGenerate isGenerating : Bool) (env : PipelineEnv)
    (r : TryOnResponse) (m : String)
    (ht : (handleGenerate canGenerate isGenerating GenerationMode.video env).tryOnStep
        = some (Except.ok r))
    (hv : (handleGenerate canGenerate isGenerating GenerationMode.video env).videoStep
        = some (Except.error m)) :
    (handleGenerate canGenerate isGenerating GenerationMode.video env).outcome
        = PipelineOutcome.failure m
    ∧ (handleGenerate canGenerate isGenerating GenerationMode.video env).resultUri = none
    ∧ (handleGenerate canGenerate isGenerating GenerationMode.video env).historyAdded = none := by
  unfold handleGenerate at ht hv ⊢
  by_cases hg : (!canGenerate || isGenerating) = true
  · rw [if_pos hg] at ht
    simp at ht
  · rw [if_neg hg] at ht hv ⊢
    rcases hae : env.avatarEncode with e | av
    · simp only [hae] at ht
      simp [failedRun] at ht
    · simp only [hae] at ht hv ⊢
      rcases hce : env.clothesEncode with e2 | cl
      · simp only [hce] at ht
        simp [failedRun] at ht
      · simp only [hce] at ht hv ⊢
        rcases htr : generateTryOn
            { avatar_b64 := av, clothes_b64 := cl, compose := none, seed := none }
            env.tryOnNet with ⟨tres, tcalls⟩
        rcases tres with te | tok
        · simp only [htr] at ht
          simp [failedRun] at ht
        · simp only [htr] at ht hv ⊢
          rcases hvl : generateVideoLoop
              { image_b64 := tok.image_b64, mode := some "360",
                seconds := none, seed := none } env.videoNet with ⟨vres, vcalls⟩
          rcases vres with ve | vok
          · simp only [hvl] at hv ⊢
            simp only [failedRun] at hv ⊢
            simp at hv
            subst hv
            simp
          · simp only [hvl] at hv ⊢
            split at hv <;> simp_all [failedRun]

/-- Witness for C4 at the concrete oracle `c4Env`. -/
theorem C4_video_failure_discards_tryOn_witness :
    (handleGenerate true false GenerationMode.video c4Env).outcome
        = PipelineOutcome.failure "video backend down"
    ∧ (handleGenerate true false GenerationMode.video c4Env).resultUri = none
    ∧ (handleGenerate true false GenerationMode.video c4Env).historyAdded = none :=
  C4_video_failure_discards_tryOn true false c4Env
    { image_b64 := "TRY", clothing_composite_b64 := none, meta := none }
    "video backend down" rfl rfl

/-- C9 counterexample: encoding a remote URL whose download completes
with a non-200 status exits with an error while the temporary download
file still exists — the claimed cleanup on every exit path does not
hold. -/
theorem C9_counterexample :
    (imageUriToBase64 "https://e/x.png" (ReadOutcome.ok "")
        (DownloadOutcome.done 404) (ReadOutcome.ok "d")).tempFileRemains = true
    ∧ (imageUriToBase64 "https://e/x.png" (ReadOutcome.ok "")
        (DownloadOutcome.done 404) (ReadOutcome.ok "d")).result
      = Except.error
          ("Failed to convert image: Failed to download image: " ++ toString 404) :=
  ⟨rfl, rfl⟩

/-- C9 (amended): the temporary download file of a remote-URL encode is
deleted only on the fully successful path (download status 200 followed
by a successful read). On the error exits that follow a completed
download — a non-200 status, or a read failure — the temp file remains;
no file remains when the download call itself throws, since none was
written. -/
theorem C9_temp_cleanup_only_on_success
    (uri : String) (lr rr : ReadOutcome) (status : Nat)
    (dmsg rmsg data : String)
    (hd : strStartsWith uri "data:" = false)
    (hf : strStartsWith uri "file://" = false)
    (hs : strStartsWith uri "/" = false)
    (h200 : status ≠ 200) :
    (imageUriToBase64 uri lr (.done 200) (.ok data)).tempFileRemains = false
    ∧ (imageUriToBase64 uri lr (.done 200) (.ok data)).result = .ok data
    ∧ (imageUriToBase64 uri lr (.done status) rr).tempFileRemains = true
    ∧ (imageUriToBase64 uri lr (.done 200) (.fails rmsg)).tempFileRemains = true
    ∧ (imageUriToBase64 uri lr (.done 200) (.fails rmsg)).result
        = .error ("Failed to convert image: " ++ rmsg)
    ∧ (imageUriToBase64 uri lr (.fails dmsg) rr).tempFileRemains = false := by
  simp [imageUriToBase64, hd, hf, hs, h200]

/-- Witness for C9 at a concrete remote URL. -/
theorem C9_temp_cleanup_only_on_success_witness :
    (imageUriToBase64 "https://e/y.png" (ReadOutcome.ok "L") (.done 200)
        (.ok "DATA")).tempFileRemains = false
    ∧ (imageUriToBase64 "https://e/y.png" (ReadOutcome.ok "L") (.done 200)
        (.ok "DATA")).result = .ok "DATA"
    ∧ (imageUriToBase64 "https://e/y.png" (ReadOutcome.ok "L") (.done 500)
        (ReadOutcome.fails "boom")).tempFileRemains = true
    ∧ (imageUriToBase64 "https://e/y.png" (ReadOutcome.ok "L") (.done 200)
        (.fails "boom")).tempFileRemains = true
    ∧ (imageUriToBase64 "https://e/y.png" (ReadOutcome.ok "L") (.done 200)
        (.fails "boom")).result
        = .error ("Failed to convert image: " ++ "boom")
    ∧ (imageUriToBase64 "https://e/y.png" (ReadOutcome.ok "L")
        (.fails "netdown") (ReadOutcome.fails "boom")).tempFileRemains = false :=
  C9_temp_cleanup_only_on_success "https://e/y.png" (ReadOutcome.ok "L")
    (ReadOutcome.fails "boom") 500 "netdown" "boom" "DATA"
    (by decide) (by decide) (by decide) (by decide)

end OpenVTO
